import Mathlib

/-!
Shallow embedding of the checkpoint/rollback versioning core of the
api_tester backend (NestJS + typegoose over MongoDB).

Embedded source files:
- request.entity (the `Request` typegoose class): fields _id, name (required),
  url (required), method (required, enum GET/POST/PUT/DELETE), headers?, body?,
  unsaved (default true), plus createdAt/updatedAt from `timestamps: true`.
- checkpoint.entity (the `Checkpoint` typegoose class): _id, requestId
  (required ref), name?, data {url, method, headers?, body?}, timestamps.
- request.service (`RequestService`): create, findOne, update, remove,
  setUnsavedStatus.
- checkpoint.service (`CheckpointService`): create, findAllForRequest,
  rollback, remove.
- create-request.dto / update-request.dto: class-validator whitelists,
  in particular the IsEnum lists for `method`.

The MongoDB collections are modelled as lists of documents inside a `DB`
state record; `findById`, `findByIdAndUpdate` and `deleteOne` are modelled
as list operations keyed on `_id`.  ObjectIds are modelled as `Nat`,
timestamps as `Nat` instants, and `Record<string, any>` payloads as
association lists of strings (no operation of the core ever inspects them).
-/

/-- JSON-object payloads (`Record<string, any>` in the source): association
lists of string keys to opaque string values.  The core copies these values
around whole and never looks inside them. -/
abbrev JsonObj := List (String × String)

/-- The `Request` entity document as persisted (after a successful save, every
required field is present).  `createdAt` and `updatedAt` come from the
`timestamps: true` schema option. -/
structure ApiRequest where
  _id : Nat
  name : String
  url : String
  method : String
  headers : Option JsonObj
  body : Option JsonObj
  unsaved : Bool
  createdAt : Nat
  updatedAt : Nat
deriving Repr, DecidableEq

/-- The snapshot object stored in `Checkpoint.data`: exactly
{url, method, headers?, body?} per the entity declaration. -/
structure CheckpointData where
  url : String
  method : String
  headers : Option JsonObj
  body : Option JsonObj
deriving Repr, DecidableEq

/-- The `Checkpoint` entity document. -/
structure Checkpoint where
  _id : Nat
  requestId : Nat
  name : Option String
  data : CheckpointData
  createdAt : Nat
  updatedAt : Nat
deriving Repr, DecidableEq

/-- The database state: the two MongoDB collections. -/
structure DB where
  requests : List ApiRequest
  checkpoints : List Checkpoint
deriving Repr, DecidableEq

/-- The NestJS HTTP exceptions thrown by the two services. -/
inductive ApiError where
  | notFound (msg : String)
  | internalServerError (msg : String)
deriving Repr, DecidableEq

/-- Model of `requestModel.findById(id)`. -/
def findRequest (db : DB) (id : Nat) : Option ApiRequest :=
  db.requests.find? (fun r => r._id == id)

/-- Model of `checkpointModel.findById(id)`. -/
def findCheckpoint (db : DB) (id : Nat) : Option Checkpoint :=
  db.checkpoints.find? (fun c => c._id == id)

/-- Replace the document with the given _id by the updated document. -/
def replaceById (l : List ApiRequest) (id : Nat) (r1 : ApiRequest) : List ApiRequest :=
  l.map (fun x => if x._id == id then r1 else x)

/-- Model of `requestModel.findByIdAndUpdate(id, upd, { new: true })`: `f`
is the effect of applying the update document to the stored document.
Returns `none` when no document has the id (the query resolves to null). -/
def findByIdAndUpdate (db : DB) (id : Nat) (f : ApiRequest → ApiRequest) :
    Option (ApiRequest × DB) :=
  match db.requests.find? (fun r => r._id == id) with
  | none => none
  | some r =>
      some (f r, { db with requests := replaceById db.requests id (f r) })

/-- The HTTP-method enum of the `Request` entity @prop:
required: true, enum: GET, POST, PUT, DELETE. -/
def requestMethodEnum : List String := ["GET", "POST", "PUT", "DELETE"]

/-- The IsEnum whitelist on `CreateRequestDto.method`. -/
def createRequestDtoMethods : List String := ["GET", "POST", "PUT", "DELETE"]

/-- The IsEnum whitelist on `UpdateRequestDto.method`. -/
def updateRequestDtoMethods : List String := ["GET", "POST", "PUT", "DELETE"]

/-- The payload accepted by POST /requests (`CreateRequestDto`): url and
method are required, headers and body optional.  There is no `name`
property on this DTO, and the controller's ValidationPipe runs with
whitelist + forbidNonWhitelisted, so no other property can reach the
service. -/
structure CreateRequestDto where
  url : String
  method : String
  headers : Option JsonObj
  body : Option JsonObj
deriving Repr, DecidableEq

/-- Whether a method string passes the `@IsEnum` check of CreateRequestDto. -/
def CreateRequestDto.methodAccepted (m : String) : Bool :=
  createRequestDtoMethods.contains m

/-- The payload accepted by PATCH /requests/:id (`UpdateRequestDto`): every
field optional. -/
structure UpdateRequestDto where
  url : Option String
  method : Option String
  headers : Option JsonObj
  body : Option JsonObj
deriving Repr, DecidableEq

/-- Whether an (optional) method passes UpdateRequestDto validation:
absent passes (@IsOptional), present must be in the IsEnum list. -/
def UpdateRequestDto.methodAccepted (m : Option String) : Bool :=
  match m with
  | none => true
  | some v => updateRequestDtoMethods.contains v

/-- The mongoose document assembled by `new this.requestModel(createRequestDto)`
before validation: DTO fields are copied over, fields absent from the DTO are
undefined, and `unsaved` receives its schema default `true`.  CreateRequestDto
has no `name` field, so `name` is always undefined here. -/
structure RequestDraftDoc where
  name : Option String
  url : Option String
  method : Option String
  headers : Option JsonObj
  body : Option JsonObj
  unsaved : Bool
deriving Repr, DecidableEq

/-- Document construction from the DTO (`new this.requestModel(dto)`). -/
def newRequestModelDoc (dto : CreateRequestDto) : RequestDraftDoc :=
  { name := none
    url := some dto.url
    method := some dto.method
    headers := dto.headers
    body := dto.body
    unsaved := true }

/-- Schema validation run by mongoose `save()`, following the @prop options of
the `Request` entity in declaration order: `name` required (with trim),
`url` required (with trim), `method` required and restricted to the enum.
Returns the first failing path, or none when the document is valid. -/
def validateRequestDraft (d : RequestDraftDoc) : Option String :=
  match d.name with
  | none => some "name"
  | some n =>
    if n.trim = "" then some "name"
    else
      match d.url with
      | none => some "url"
      | some u =>
        if u.trim = "" then some "url"
        else
          match d.method with
          | none => some "method"
          | some m => if requestMethodEnum.contains m then none else some "method"

/-- Errors surfaced by `save()`: a mongoose ValidationError naming the
offending path. -/
inductive SaveError where
  | validationFailed (path : String)
deriving Repr, DecidableEq

/-- Model of `RequestService.create(createRequestDto)`: builds the document,
then `save()` runs schema validation and either rejects or persists it
(timestamps populate createdAt/updatedAt, trim setters apply). -/
def RequestService.create (dto : CreateRequestDto) (newId now : Nat) (db : DB) :
    Except SaveError (ApiRequest × DB) :=
  let doc := newRequestModelDoc dto
  match validateRequestDraft doc with
  | some path => .error (.validationFailed path)
  | none =>
      let r : ApiRequest :=
        { _id := newId
          name := ((doc.name.getD "").trim)
          url := ((doc.url.getD "").trim)
          method := doc.method.getD ""
          headers := doc.headers
          body := doc.body
          unsaved := doc.unsaved
          createdAt := now
          updatedAt := now }
      .ok (r, { db with requests := db.requests ++ [r] })

/-- Effect of the update document { ...updateRequestDto, unsaved: true } as
passed to findByIdAndUpdate: fields present in the DTO overwrite the stored
ones, absent fields are left alone, unsaved is forced to true, and the
timestamps option refreshes updatedAt. -/
def mergeUpdate (dto : UpdateRequestDto) (now : Nat) (r : ApiRequest) : ApiRequest :=
  { r with
    url := match dto.url with | some u => u | none => r.url
    method := match dto.method with | some m => m | none => r.method
    headers := match dto.headers with | some h => some h | none => r.headers
    body := match dto.body with | some b => some b | none => r.body
    unsaved := true
    updatedAt := now }

/-- Model of `RequestService.update(id, updateRequestDto)`. -/
def RequestService.update (id : Nat) (dto : UpdateRequestDto) (now : Nat) (db : DB) :
    Except ApiError (ApiRequest × DB) :=
  match findByIdAndUpdate db id (mergeUpdate dto now) with
  | none => .error (.notFound "Request not found")
  | some (r1, db1) => .ok (r1, db1)

/-- Model of `RequestService.setUnsavedStatus(id, status)`: an update document
{ unsaved: status } via findByIdAndUpdate (timestamps refresh updatedAt). -/
def RequestService.setUnsavedStatus (id : Nat) (status : Bool) (now : Nat) (db : DB) :
    Except ApiError (ApiRequest × DB) :=
  match findByIdAndUpdate db id (fun r => { r with unsaved := status, updatedAt := now }) with
  | none => .error (.notFound "Request not found")
  | some (r1, db1) => .ok (r1, db1)

/-- The payload of POST /checkpoints (`CreateCheckpointDto`): requestId
required, name optional. -/
structure CreateCheckpointDto where
  requestId : Nat
  name : Option String
deriving Repr, DecidableEq

/-- The checkpoint document built and saved by `CheckpointService.create`:
data is the snapshot object read from the request at this instant. -/
def mkCheckpointOf (dto : CreateCheckpointDto) (req : ApiRequest) (newId now : Nat) :
    Checkpoint :=
  { _id := newId
    requestId := dto.requestId
    name := dto.name
    data := { url := req.url, method := req.method, headers := req.headers, body := req.body }
    createdAt := now
    updatedAt := now }

/-- Model of `CheckpointService.create(createCheckpointDto)`.
The source loads the request (NotFound when absent), saves a new checkpoint
whose data copies {url, method, headers, body}, and then calls
`requestService.setUnsavedStatus(requestId, false)` inside its own try/catch:
a failure there is logged and swallowed, the saved checkpoint is still
returned.  `flagUpdateFails` injects a failure of that inner call (the
infrastructure-level failure the catch block is written for). -/
def CheckpointService.create (dto : CreateCheckpointDto) (flagUpdateFails : Bool)
    (newId now : Nat) (db : DB) : Except ApiError (Checkpoint × DB) :=
  match findRequest db dto.requestId with
  | none => .error (.notFound "Request not found.")
  | some req =>
      let cp := mkCheckpointOf dto req newId now
      let db1 : DB := { db with checkpoints := db.checkpoints ++ [cp] }
      if flagUpdateFails then
        .ok (cp, db1)
      else
        match RequestService.setUnsavedStatus dto.requestId false now db1 with
        | .ok (_, db2) => .ok (cp, db2)
        | .error _ => .ok (cp, db1)

/-- Ordering used by `.sort(\x7b createdAt: -1 \x7d)`: newest first. -/
def newerFirst (a b : Checkpoint) : Prop := b.createdAt ≤ a.createdAt

instance : DecidableRel newerFirst := fun a b => Nat.decLe b.createdAt a.createdAt

instance : IsTotal Checkpoint newerFirst := ⟨fun a b => Nat.le_total b.createdAt a.createdAt⟩

instance : IsTrans Checkpoint newerFirst := ⟨fun _ _ _ h1 h2 => Nat.le_trans h2 h1⟩

/-- Sorting by creation time descending, the effect of
`find(\x7b requestId \x7d).sort(\x7b createdAt: -1 \x7d)` on the matching documents. -/
def sortByCreatedAtDesc (l : List Checkpoint) : List Checkpoint :=
  l.insertionSort newerFirst

/-- Model of `CheckpointService.findAllForRequest(requestId)`. -/
def CheckpointService.findAllForRequest (requestId : Nat) (db : DB) :
    Except ApiError (List Checkpoint) :=
  match findRequest db requestId with
  | none => .error (.notFound "Request not found, cannot retrieve checkpoints.")
  | some _ =>
      .ok (sortByCreatedAtDesc (db.checkpoints.filter (fun c => c.requestId == requestId)))

/-- Effect of the rollback update document { ...data, unsaved: true } on the
stored request: the four snapshot fields are written back, unsaved is forced
to true, and the timestamps option refreshes updatedAt. -/
def applyRollbackData (d : CheckpointData) (now : Nat) (r : ApiRequest) : ApiRequest :=
  { r with
    url := d.url
    method := d.method
    headers := d.headers
    body := d.body
    unsaved := true
    updatedAt := now }

/-- Model of `CheckpointService.rollback(checkpointId)`. -/
def CheckpointService.rollback (checkpointId now : Nat) (db : DB) :
    Except ApiError (ApiRequest × DB) :=
  match findCheckpoint db checkpointId with
  | none => .error (.notFound "Checkpoint not found.")
  | some cp =>
      match findByIdAndUpdate db cp.requestId (applyRollbackData cp.data now) with
      | none =>
          .error (.internalServerError
            "Failed to find and update original request during rollback.")
      | some (r1, db1) => .ok (r1, db1)

/-- Mongoose DeleteResult as far as the service reads it. -/
structure DeleteResult where
  deletedCount : Nat
deriving Repr, DecidableEq

/-- Model of `checkpointModel.deleteOne(\x7b _id: id \x7d)`: removes the first (and
in MongoDB, only) document with that _id, reporting how many were deleted. -/
def deleteOneCheckpoint (db : DB) (id : Nat) : DeleteResult × DB :=
  if db.checkpoints.any (fun c => c._id == id) then
    ({ deletedCount := 1 },
     { db with checkpoints := db.checkpoints.eraseP (fun c => c._id == id) })
  else
    ({ deletedCount := 0 }, db)

/-- The response shape of `CheckpointService.remove`. -/
structure RemoveResult where
  deleted : Bool
  id : Nat
deriving Repr, DecidableEq

/-- Model of `CheckpointService.remove(id)`. -/
def CheckpointService.remove (id : Nat) (db : DB) :
    Except ApiError (RemoveResult × DB) :=
  let res := deleteOneCheckpoint db id
  if res.1.deletedCount == 0 then
    .error (.notFound "Checkpoint not found")
  else
    .ok ({ deleted := true, id := id }, res.2)

/-- A request-mutating operation of the Request Store or Versioning Service,
used to state that checkpoints are immune to subsequent request mutations.
Failed operations leave the database unchanged. -/
inductive RequestMutation where
  | update (id : Nat) (dto : UpdateRequestDto) (now : Nat)
  | rollback (checkpointId : Nat) (now : Nat)
deriving Repr

/-- Resulting database state of one mutation (the prior state on failure). -/
def applyMutation (m : RequestMutation) (db : DB) : DB :=
  match m with
  | .update id dto now =>
      match RequestService.update id dto now db with
      | .ok (_, db1) => db1
      | .error _ => db
  | .rollback cid now =>
      match CheckpointService.rollback cid now db with
      | .ok (_, db1) => db1
      | .error _ => db

/-- Resulting database state of a sequence of mutations. -/
def applyMutations (ms : List RequestMutation) (db : DB) : DB :=
  ms.foldl (fun d m => applyMutation m d) db

/-- Database state after findByIdAndUpdate stored the updated document. -/
def dbAfterRequestUpdate (db : DB) (id : Nat) (r1 : ApiRequest) : DB :=
  { db with requests := replaceById db.requests id r1 }


/-! ## Concrete sample data used by the closed evaluation theorems -/

/-- Sample stored request; its unsaved flag is false so the theorems forcing
unsaved back to true are exercised on the interesting prior value. -/
def reqA : ApiRequest :=
  { _id := 1, name := "Sample", url := "http://a.com", method := "GET",
    headers := some [("Content-Type", "application/json")], body := none,
    unsaved := false, createdAt := 0, updatedAt := 0 }

/-- Sample stored checkpoint owned by reqA, holding an older snapshot. -/
def cpA : Checkpoint :=
  { _id := 10, requestId := 1, name := some "v1",
    data := { url := "http://old.com", method := "POST", headers := none,
              body := some [("k", "v")] },
    createdAt := 3, updatedAt := 3 }

/-- Sample database with one request and one checkpoint. -/
def dbA : DB := { requests := [reqA], checkpoints := [cpA] }

/-- A database whose only checkpoint references a request that was deleted. -/
def dbOrphan : DB := { requests := [], checkpoints := [cpA] }

/-- An older checkpoint of reqA. -/
def cpB1 : Checkpoint :=
  { _id := 11, requestId := 1, name := none,
    data := { url := "http://a.com", method := "GET", headers := none, body := none },
    createdAt := 1, updatedAt := 1 }

/-- The newest checkpoint of reqA. -/
def cpB2 : Checkpoint :=
  { _id := 12, requestId := 1, name := some "v2",
    data := { url := "http://b.com", method := "GET", headers := none, body := none },
    createdAt := 5, updatedAt := 5 }

/-- Database whose checkpoints are stored out of creation order. -/
def dbB : DB := { requests := [reqA], checkpoints := [cpB1, cpB2, cpA] }

/-- Sample partial update payload: only the url is supplied. -/
def dtoU : UpdateRequestDto :=
  { url := some "http://b.com", method := none, headers := none, body := none }

/-- Sample checkpoint-creation payload for reqA. -/
def dtoC : CreateCheckpointDto := { requestId := 1, name := none }

/-- The checkpoint document that creating dtoC against dbA persists. -/
def cpNew : Checkpoint := mkCheckpointOf dtoC reqA 20 5

/-- The database state after that checkpoint creation (flag update succeeds). -/
def dbAfterCreate : DB :=
  dbAfterRequestUpdate { dbA with checkpoints := dbA.checkpoints ++ [cpNew] } 1
    { reqA with unsaved := false, updatedAt := 5 }


/-! ## Helper lemmas on the persistence primitives -/

/-- The id of a document returned by findRequest matches the queried id. -/
theorem findRequest_id (db : DB) (id : Nat) (req : ApiRequest)
    (h : findRequest db id = some req) : req._id = id := by
  unfold findRequest at h
  have := List.find?_some h
  simpa using this

/-- findByIdAndUpdate on a present document applies the update and stores it. -/
theorem findByIdAndUpdate_of_found (db : DB) (id : Nat) (f : ApiRequest → ApiRequest)
    (req : ApiRequest) (h : findRequest db id = some req) :
    findByIdAndUpdate db id f =
      some (f req, { db with requests := replaceById db.requests id (f req) }) := by
  unfold findRequest at h
  unfold findByIdAndUpdate
  rw [h]

/-- findByIdAndUpdate on an absent document resolves to null. -/
theorem findByIdAndUpdate_of_absent (db : DB) (id : Nat) (f : ApiRequest → ApiRequest)
    (h : findRequest db id = none) :
    findByIdAndUpdate db id f = none := by
  unfold findRequest at h
  unfold findByIdAndUpdate
  rw [h]

/-- After replacing the document with the queried id by an updated document
carrying the same id, a lookup by that id returns the updated document. -/
theorem find?_replaceById (l : List ApiRequest) (id : Nat) (req r1 : ApiRequest)
    (h : l.find? (fun x => x._id == id) = some req) (h1 : r1._id = id) :
    (replaceById l id r1).find? (fun x => x._id == id) = some r1 := by
  induction l with
  | nil => simp at h
  | cons a t ih =>
    by_cases ha : a._id = id
    · simp [replaceById, List.find?_cons, ha, h1]
    · have hfa : (a._id == id) = false := by simp [ha]
      rw [List.find?_cons_of_neg] at h
      · simp only [replaceById, List.map_cons, hfa, if_false] at *
        rw [List.find?_cons_of_neg]
        · exact ih h
        · simp [ha]
      · simp [ha]

/-! ## Claim theorems -/

/-- C4: for every id and partialFields, update(id, partialFields) merges the
partial fields into the existing Request (fields absent from the DTO keep
their stored values), unconditionally sets unsaved to true regardless of its
prior value, persists and returns the updated entity; it fails with NotFound
exactly when no Request with that id exists. -/
theorem update_merges_and_marks_unsaved (id : Nat) (dto : UpdateRequestDto)
    (now : Nat) (db : DB) :
    ((∃ m, RequestService.update id dto now db = .error (.notFound m)) ↔
      findRequest db id = none) ∧
    (∀ req, findRequest db id = some req →
      ∃ db1, RequestService.update id dto now db = .ok (mergeUpdate dto now req, db1) ∧
        (mergeUpdate dto now req).unsaved = true ∧
        findRequest db1 id = some (mergeUpdate dto now req) ∧
        db1.checkpoints = db.checkpoints) := by
  constructor
  · constructor
    · rintro ⟨m, hm⟩
      cases h : findRequest db id with
      | none => rfl
      | some req =>
        rw [RequestService.update, findByIdAndUpdate_of_found db id _ req h] at hm
        simp at hm
    · intro h
      refine ⟨"Request not found", ?_⟩
      rw [RequestService.update, findByIdAndUpdate_of_absent db id _ h]
  · intro req h
    refine ⟨{ db with requests := replaceById db.requests id (mergeUpdate dto now req) },
      ?_, rfl, ?_, rfl⟩
    · rw [RequestService.update, findByIdAndUpdate_of_found db id _ req h]
    · have hid : (mergeUpdate dto now req)._id = id := by
        simpa [mergeUpdate] using findRequest_id db id req h
      unfold findRequest at h
      exact find?_replaceById db.requests id req _ h hid

/-- Unfolding of rollback once the checkpoint lookup is known to succeed. -/
theorem rollback_of_checkpoint_found (cid now : Nat) (db : DB) (cp : Checkpoint)
    (hc : findCheckpoint db cid = some cp) :
    CheckpointService.rollback cid now db =
      (match findByIdAndUpdate db cp.requestId (applyRollbackData cp.data now) with
       | none => Except.error (ApiError.internalServerError
           "Failed to find and update original request during rollback.")
       | some (r1, db1) => Except.ok (r1, db1)) := by
  rw [CheckpointService.rollback, hc]

/-- C2: for every existing checkpoint whose owning Request exists,
rollback(checkpointId) sets that Request's url, method, headers and body
exactly equal to the checkpoint's stored data, sets unsaved to true regardless
of its prior value (the prior value is universally quantified here), persists
the result, and returns the updated Request. -/
theorem rollback_restores_snapshot (cid now : Nat) (db : DB) (cp : Checkpoint)
    (req : ApiRequest)
    (hc : findCheckpoint db cid = some cp)
    (hr : findRequest db cp.requestId = some req) :
    ∃ db1, CheckpointService.rollback cid now db =
        .ok (applyRollbackData cp.data now req, db1) ∧
      (applyRollbackData cp.data now req).url = cp.data.url ∧
      (applyRollbackData cp.data now req).method = cp.data.method ∧
      (applyRollbackData cp.data now req).headers = cp.data.headers ∧
      (applyRollbackData cp.data now req).body = cp.data.body ∧
      (applyRollbackData cp.data now req).unsaved = true ∧
      findRequest db1 cp.requestId = some (applyRollbackData cp.data now req) := by
  refine ⟨dbAfterRequestUpdate db cp.requestId (applyRollbackData cp.data now req),
    ?_, rfl, rfl, rfl, rfl, rfl, ?_⟩
  · rw [rollback_of_checkpoint_found cid now db cp hc,
      findByIdAndUpdate_of_found db _ _ req hr]
    rfl
  · have hid : (applyRollbackData cp.data now req)._id = cp.requestId := by
      simpa [applyRollbackData] using findRequest_id db cp.requestId req hr
    unfold findRequest at hr
    exact find?_replaceById db.requests cp.requestId req _ hr hid

/-- C3: rollback fails with NotFound exactly when no checkpoint with the id
exists; when the checkpoint exists but its referenced Request cannot be found
and updated, it fails with InternalServerError, which is distinct from the
NotFound error, so the two failure causes are distinguishable. -/
theorem rollback_error_kinds (cid now : Nat) (db : DB) :
    ((∃ m, CheckpointService.rollback cid now db = .error (.notFound m)) ↔
      findCheckpoint db cid = none) ∧
    (∀ cp, findCheckpoint db cid = some cp → findRequest db cp.requestId = none →
      ∃ m, CheckpointService.rollback cid now db = .error (.internalServerError m)) ∧
    (∀ m1 m2, ApiError.notFound m1 ≠ ApiError.internalServerError m2) := by
  refine ⟨⟨?_, ?_⟩, ?_, ?_⟩
  · rintro ⟨m, hm⟩
    cases h : findCheckpoint db cid with
    | none => rfl
    | some cp =>
      rw [rollback_of_checkpoint_found cid now db cp h] at hm
      cases h2 : findByIdAndUpdate db cp.requestId (applyRollbackData cp.data now) with
      | none => rw [h2] at hm; simp at hm
      | some p =>
        obtain ⟨r1, db1⟩ := p
        rw [h2] at hm; simp at hm
  · intro h
    exact ⟨"Checkpoint not found.", by rw [CheckpointService.rollback, h]⟩
  · intro cp hc hr
    refine ⟨"Failed to find and update original request during rollback.", ?_⟩
    rw [rollback_of_checkpoint_found cid now db cp hc,
      findByIdAndUpdate_of_absent db _ _ hr]
  · intro m1 m2
    simp

/-- C10 (amended): a successful rollback leaves the target Request's _id, name
and createdAt unchanged — the update applies only the checkpoint's data fields
plus the unsaved flag, while the schema's timestamps option refreshes
updatedAt. -/
theorem rollback_frame_effect (cid now : Nat) (db : DB) (cp : Checkpoint)
    (req : ApiRequest)
    (hc : findCheckpoint db cid = some cp)
    (hr : findRequest db cp.requestId = some req) :
    ∃ db1, CheckpointService.rollback cid now db =
        .ok (applyRollbackData cp.data now req, db1) ∧
      (applyRollbackData cp.data now req)._id = req._id ∧
      (applyRollbackData cp.data now req).name = req.name ∧
      (applyRollbackData cp.data now req).createdAt = req.createdAt := by
  refine ⟨dbAfterRequestUpdate db cp.requestId (applyRollbackData cp.data now req),
    ?_, rfl, rfl, rfl⟩
  rw [rollback_of_checkpoint_found cid now db cp hc,
    findByIdAndUpdate_of_found db _ _ req hr]
  rfl

/-- Unfolding of CheckpointService.create once the request lookup succeeds. -/
theorem checkpoint_create_of_found (dto : CreateCheckpointDto) (ff : Bool)
    (nid now : Nat) (db : DB) (req : ApiRequest)
    (h : findRequest db dto.requestId = some req) :
    CheckpointService.create dto ff nid now db =
      (let cp := mkCheckpointOf dto req nid now
       let db1 : DB := { db with checkpoints := db.checkpoints ++ [cp] }
       if ff then Except.ok (cp, db1)
       else
         match RequestService.setUnsavedStatus dto.requestId false now db1 with
         | .ok (_, db2) => Except.ok (cp, db2)
         | .error _ => Except.ok (cp, db1)) := by
  rw [CheckpointService.create, h]

/-- Unfolding of setUnsavedStatus on a present request. -/
theorem setUnsavedStatus_of_found (id : Nat) (status : Bool) (now : Nat) (db : DB)
    (req : ApiRequest) (h : findRequest db id = some req) :
    RequestService.setUnsavedStatus id status now db =
      .ok ({ req with unsaved := status, updatedAt := now },
        dbAfterRequestUpdate db id { req with unsaved := status, updatedAt := now }) := by
  rw [RequestService.setUnsavedStatus, findByIdAndUpdate_of_found db id _ req h]
  rfl

/-- A stored update never touches the checkpoints collection. -/
theorem findByIdAndUpdate_checkpoints (db : DB) (id : Nat) (f : ApiRequest → ApiRequest)
    (r1 : ApiRequest) (db1 : DB)
    (h : findByIdAndUpdate db id f = some (r1, db1)) : db1.checkpoints = db.checkpoints := by
  unfold findByIdAndUpdate at h
  cases h2 : db.requests.find? (fun r => r._id == id) with
  | none => rw [h2] at h; simp at h
  | some r =>
    rw [h2] at h
    simp at h
    rw [← h.2]

/-- C1: for every request that exists, createCheckpoint persists the
Checkpoint and then attempts to set the Request's unsaved flag to false.
When that flag update fails (flagUpdateFails = true), the operation still
succeeds overall: the already-persisted Checkpoint is returned and the
request collection is untouched, the failure being only logged.  When the
flag update goes through, the stored request has unsaved = false. -/
theorem checkpoint_create_best_effort (dto : CreateCheckpointDto) (ff : Bool)
    (nid now : Nat) (db : DB) (req : ApiRequest)
    (h : findRequest db dto.requestId = some req) :
    ∃ cp db1, CheckpointService.create dto ff nid now db = .ok (cp, db1) ∧
      cp ∈ db1.checkpoints ∧
      (ff = true → db1.requests = db.requests) ∧
      (ff = false → findRequest db1 dto.requestId =
        some { req with unsaved := false, updatedAt := now }) := by
  rw [checkpoint_create_of_found dto ff nid now db req h]
  cases ff with
  | true =>
    refine ⟨mkCheckpointOf dto req nid now, _, rfl, ?_, fun _ => rfl, fun hcon => ?_⟩
    · simp
    · simp at hcon
  | false =>
    have h1 : findRequest { db with checkpoints :=
        db.checkpoints ++ [mkCheckpointOf dto req nid now] } dto.requestId = some req := h
    rw [if_neg (by simp), setUnsavedStatus_of_found dto.requestId false now _ req h1]
    refine ⟨mkCheckpointOf dto req nid now, _, rfl, ?_, fun hcon => ?_, fun _ => ?_⟩
    · simp [dbAfterRequestUpdate]
    · simp at hcon
    · have hid : ({ req with unsaved := false, updatedAt := now } : ApiRequest)._id =
          dto.requestId := findRequest_id db dto.requestId req h
      unfold findRequest at h1 ⊢
      exact find?_replaceById _ dto.requestId req _ h1 hid

/-- Request-store updates never touch the checkpoints collection. -/
theorem update_preserves_checkpoints (id : Nat) (dto : UpdateRequestDto) (now : Nat)
    (db : DB) (r1 : ApiRequest) (db1 : DB)
    (h : RequestService.update id dto now db = .ok (r1, db1)) :
    db1.checkpoints = db.checkpoints := by
  unfold RequestService.update at h
  cases h2 : findByIdAndUpdate db id (mergeUpdate dto now) with
  | none => rw [h2] at h; simp at h
  | some p =>
    obtain ⟨r2, db2⟩ := p
    rw [h2] at h
    simp at h
    rw [← h.2]
    exact findByIdAndUpdate_checkpoints db id _ r2 db2 h2

/-- Rollback never touches the checkpoints collection. -/
theorem rollback_preserves_checkpoints (cid now : Nat) (db : DB) (r1 : ApiRequest)
    (db1 : DB) (h : CheckpointService.rollback cid now db = .ok (r1, db1)) :
    db1.checkpoints = db.checkpoints := by
  cases hc : findCheckpoint db cid with
  | none => rw [CheckpointService.rollback, hc] at h; simp at h
  | some cp =>
    rw [rollback_of_checkpoint_found cid now db cp hc] at h
    cases h2 : findByIdAndUpdate db cp.requestId (applyRollbackData cp.data now) with
    | none => rw [h2] at h; simp at h
    | some p =>
      obtain ⟨r2, db2⟩ := p
      rw [h2] at h
      simp at h
      rw [← h.2]
      exact findByIdAndUpdate_checkpoints db cp.requestId _ r2 db2 h2

/-- One request mutation leaves the checkpoints collection unchanged. -/
theorem applyMutation_checkpoints (m : RequestMutation) (db : DB) :
    (applyMutation m db).checkpoints = db.checkpoints := by
  cases m with
  | update id dto now =>
    simp only [applyMutation]
    cases h : RequestService.update id dto now db with
    | error e => rfl
    | ok p =>
      obtain ⟨r1, db1⟩ := p
      exact update_preserves_checkpoints id dto now db r1 db1 h
  | rollback cid now =>
    simp only [applyMutation]
    cases h : CheckpointService.rollback cid now db with
    | error e => rfl
    | ok p =>
      obtain ⟨r1, db1⟩ := p
      exact rollback_preserves_checkpoints cid now db r1 db1 h

/-- Any sequence of request mutations leaves the checkpoints unchanged. -/
theorem applyMutations_checkpoints (ms : List RequestMutation) (db : DB) :
    (applyMutations ms db).checkpoints = db.checkpoints := by
  induction ms generalizing db with
  | nil => rfl
  | cons m t ih =>
    unfold applyMutations at ih ⊢
    rw [List.foldl_cons, ih (applyMutation m db), applyMutation_checkpoints]

/-- Inversion of a successful CheckpointService.create: the returned
checkpoint is the snapshot document and it is appended to the store. -/
theorem checkpoint_create_ok_inv (dto : CreateCheckpointDto) (ff : Bool)
    (nid now : Nat) (db : DB) (req : ApiRequest) (cp : Checkpoint) (db1 : DB)
    (h : findRequest db dto.requestId = some req)
    (hc : CheckpointService.create dto ff nid now db = .ok (cp, db1)) :
    cp = mkCheckpointOf dto req nid now ∧
    db1.checkpoints = db.checkpoints ++ [cp] := by
  rw [checkpoint_create_of_found dto ff nid now db req h] at hc
  cases ff with
  | true =>
    simp at hc
    exact ⟨hc.1.symm, by rw [← hc.2, ← hc.1]⟩
  | false =>
    have h1 : findRequest { db with checkpoints :=
        db.checkpoints ++ [mkCheckpointOf dto req nid now] } dto.requestId = some req := h
    rw [if_neg (by simp), setUnsavedStatus_of_found dto.requestId false now _ req h1] at hc
    simp at hc
    refine ⟨hc.1.symm, ?_⟩
    rw [← hc.2, ← hc.1]
    rfl

/-- C5: the data stored by createCheckpoint is a snapshot copy of exactly
url, method, headers and body read from the Request at creation time, and for
every sequence of subsequent Request mutations (update or rollback) the
checkpoints collection — hence the previously created Checkpoint and its
data — is unchanged: copy semantics, not reference. -/
theorem checkpoint_data_is_snapshot_copy (dto : CreateCheckpointDto) (ff : Bool)
    (nid now : Nat) (db : DB) (req : ApiRequest) (cp : Checkpoint) (db1 : DB)
    (h : findRequest db dto.requestId = some req)
    (hc : CheckpointService.create dto ff nid now db = .ok (cp, db1)) :
    cp.data = { url := req.url, method := req.method,
                headers := req.headers, body := req.body } ∧
    cp ∈ db1.checkpoints ∧
    (∀ ms : List RequestMutation,
      (applyMutations ms db1).checkpoints = db1.checkpoints ∧
      cp ∈ (applyMutations ms db1).checkpoints) := by
  obtain ⟨hcp, hdb⟩ := checkpoint_create_ok_inv dto ff nid now db req cp db1 h hc
  have hmem : cp ∈ db1.checkpoints := by rw [hdb]; simp
  refine ⟨by rw [hcp]; rfl, hmem, fun ms => ⟨applyMutations_checkpoints ms db1, ?_⟩⟩
  rw [applyMutations_checkpoints ms db1]
  exact hmem

/-- C6: listCheckpoints(requestId) fails with NotFound exactly when no Request
with that id exists; when the Request exists, it returns exactly the
checkpoints whose requestId matches (as a permutation of the filtered store),
ordered newest-first by creation time, and the empty sequence when the
Request has zero checkpoints. -/
theorem list_checkpoints_for_request (rid : Nat) (db : DB) :
    ((∃ m, CheckpointService.findAllForRequest rid db = .error (.notFound m)) ↔
      findRequest db rid = none) ∧
    (∀ req, findRequest db rid = some req →
      CheckpointService.findAllForRequest rid db =
        .ok (sortByCreatedAtDesc (db.checkpoints.filter (fun c => c.requestId == rid))) ∧
      List.Perm (sortByCreatedAtDesc (db.checkpoints.filter (fun c => c.requestId == rid)))
        (db.checkpoints.filter (fun c => c.requestId == rid)) ∧
      List.Sorted newerFirst
        (sortByCreatedAtDesc (db.checkpoints.filter (fun c => c.requestId == rid))) ∧
      (db.checkpoints.filter (fun c => c.requestId == rid) = [] →
        CheckpointService.findAllForRequest rid db = .ok [])) := by
  constructor
  · constructor
    · rintro ⟨m, hm⟩
      cases h : findRequest db rid with
      | none => rfl
      | some req =>
        rw [CheckpointService.findAllForRequest, h] at hm
        simp at hm
    · intro h
      refine ⟨"Request not found, cannot retrieve checkpoints.", ?_⟩
      rw [CheckpointService.findAllForRequest, h]
  · intro req h
    have heq : CheckpointService.findAllForRequest rid db =
        .ok (sortByCreatedAtDesc (db.checkpoints.filter (fun c => c.requestId == rid))) := by
      rw [CheckpointService.findAllForRequest, h]
    refine ⟨heq, List.perm_insertionSort newerFirst _,
      List.sorted_insertionSort newerFirst _, fun hemp => ?_⟩
    rw [heq, hemp]
    rfl

/-- C9: deleteCheckpoint(id) fails with NotFound exactly when nothing was
deleted (deletedCount = 0, which happens exactly when no checkpoint with
that id exists); when a checkpoint was deleted it returns deleted = true with
the id, and the request collection — in particular every unsaved flag — is
unchanged. -/
theorem remove_checkpoint_spec (cid : Nat) (db : DB) :
    ((∃ m, CheckpointService.remove cid db = .error (.notFound m)) ↔
      (deleteOneCheckpoint db cid).1.deletedCount = 0) ∧
    ((deleteOneCheckpoint db cid).1.deletedCount = 0 ↔ findCheckpoint db cid = none) ∧
    (∀ res db1, CheckpointService.remove cid db = .ok (res, db1) →
      res.deleted = true ∧ res.id = cid ∧ db1.requests = db.requests) := by
  refine ⟨⟨?_, ?_⟩, ?_, ?_⟩
  · rintro ⟨m, hm⟩
    unfold CheckpointService.remove at hm
    by_cases hz : (deleteOneCheckpoint db cid).1.deletedCount = 0
    · exact hz
    · rw [if_neg (by simpa using hz)] at hm
      simp at hm
  · intro hz
    refine ⟨"Checkpoint not found", ?_⟩
    unfold CheckpointService.remove
    rw [if_pos (by simpa using hz)]
  · unfold deleteOneCheckpoint findCheckpoint
    by_cases hany : db.checkpoints.any (fun c => c._id == cid)
    · rw [if_pos hany]
      simp only [List.any_eq_true] at hany
      obtain ⟨c, hc, hcid⟩ := hany
      constructor
      · intro hz; simp at hz
      · intro hfind
        rw [List.find?_eq_none] at hfind
        exact absurd hcid (by simpa using hfind c hc)
    · rw [if_neg hany]
      simp only [List.any_eq_true] at hany
      push_neg at hany
      constructor
      · intro _
        rw [List.find?_eq_none]
        intro c hc
        simpa using hany c hc
      · intro _; rfl
  · intro res db1 hm
    unfold CheckpointService.remove at hm
    by_cases hz : (deleteOneCheckpoint db cid).1.deletedCount = 0
    · rw [if_pos (by simpa using hz)] at hm
      simp at hm
    · rw [if_neg (by simpa using hz)] at hm
      simp at hm
      obtain ⟨hres, hdb⟩ := hm
      refine ⟨by rw [← hres], by rw [← hres], ?_⟩
      rw [← hdb]
      unfold deleteOneCheckpoint
      by_cases hany : db.checkpoints.any (fun c => c._id == cid)
      · rw [if_pos hany]
      · rw [if_neg hany]

/-- C7 (code bug): RequestService.create rejects every CreateRequestDto,
because the Request entity schema marks name as required while the DTO has no
name property (and the controller ValidationPipe forbids non-whitelisted
properties), so mongoose save() always fails validation on path name.  In
particular create fails on the input of the service's own unit test, where
only url and method are supplied and success with unsaved = true is expected. -/
theorem request_create_rejects_missing_name :
    (∀ (dto : CreateRequestDto) (newId now : Nat) (db : DB),
      RequestService.create dto newId now db = .error (.validationFailed "name")) ∧
    RequestService.create
      { url := "http://example.com", method := "GET", headers := none, body := none }
      1 0 { requests := [], checkpoints := [] } =
      .error (.validationFailed "name") := by
  exact ⟨fun dto newId now db => rfl, rfl⟩

/-- C8 (counterexample): PATCH, claimed to be part of the accepted method
enum, is rejected by the IsEnum validator of CreateRequestDto, by the IsEnum
validator of UpdateRequestDto, and by the Request entity's schema enum. -/
theorem patch_method_rejected :
    CreateRequestDto.methodAccepted "PATCH" = false ∧
    UpdateRequestDto.methodAccepted (some "PATCH") = false ∧
    requestMethodEnum.contains "PATCH" = false := by
  decide

/-- C8 (amended): the method values accepted when creating or updating a
Request, and by the entity schema, are exactly the four-element enum
GET, POST, PUT, DELETE — PATCH is not accepted. -/
theorem method_enum_exactly_four (m : String) :
    (CreateRequestDto.methodAccepted m = true ↔
      (m = "GET" ∨ m = "POST" ∨ m = "PUT" ∨ m = "DELETE")) ∧
    (UpdateRequestDto.methodAccepted (some m) = true ↔
      (m = "GET" ∨ m = "POST" ∨ m = "PUT" ∨ m = "DELETE")) ∧
    (requestMethodEnum.contains m = true ↔
      (m = "GET" ∨ m = "POST" ∨ m = "PUT" ∨ m = "DELETE")) := by
  refine ⟨?_, ?_, ?_⟩ <;>
    simp [CreateRequestDto.methodAccepted, UpdateRequestDto.methodAccepted,
      createRequestDtoMethods, updateRequestDtoMethods, requestMethodEnum]

/-! ## Closed witnesses evaluating the theorems on the sample data -/

/-- C1 witness: creating a checkpoint for the existing request 1 with the
flag update failing still succeeds and leaves the request collection alone. -/
theorem checkpoint_create_best_effort_witness :
    findRequest dbA 1 = some reqA ∧
    (∃ cp db1, CheckpointService.create { requestId := 1, name := some "v1" }
        true 20 5 dbA = .ok (cp, db1) ∧
      cp ∈ db1.checkpoints ∧
      (true = true → db1.requests = dbA.requests) ∧
      (true = false → findRequest db1 1 =
        some { reqA with unsaved := false, updatedAt := 5 })) :=
  ⟨rfl, checkpoint_create_best_effort
    { requestId := 1, name := some "v1" } true 20 5 dbA reqA rfl⟩

/-- C2 witness: rolling back request 1 (whose unsaved flag is false) to
checkpoint 10 restores the snapshot and forces unsaved to true. -/
theorem rollback_restores_snapshot_witness :
    findCheckpoint dbA 10 = some cpA ∧
    findRequest dbA 1 = some reqA ∧
    reqA.unsaved = false ∧
    (∃ db1, CheckpointService.rollback 10 7 dbA =
        .ok (applyRollbackData cpA.data 7 reqA, db1) ∧
      (applyRollbackData cpA.data 7 reqA).url = cpA.data.url ∧
      (applyRollbackData cpA.data 7 reqA).method = cpA.data.method ∧
      (applyRollbackData cpA.data 7 reqA).headers = cpA.data.headers ∧
      (applyRollbackData cpA.data 7 reqA).body = cpA.data.body ∧
      (applyRollbackData cpA.data 7 reqA).unsaved = true ∧
      findRequest db1 1 = some (applyRollbackData cpA.data 7 reqA)) :=
  ⟨rfl, rfl, rfl, rollback_restores_snapshot 10 7 dbA cpA reqA rfl rfl⟩

/-- C3 witness: on the database with an orphaned checkpoint, rollback fails
with the Internal error, and NotFound occurs exactly on unknown checkpoint
ids. -/
theorem rollback_error_kinds_witness :
    findCheckpoint dbOrphan 10 = some cpA ∧
    findRequest dbOrphan 1 = none ∧
    (∃ m, CheckpointService.rollback 10 5 dbOrphan = .error (.internalServerError m)) ∧
    ((∃ m, CheckpointService.rollback 99 5 dbOrphan = .error (.notFound m)) ↔
      findCheckpoint dbOrphan 99 = none) :=
  ⟨rfl, rfl, (rollback_error_kinds 10 5 dbOrphan).2.1 cpA rfl rfl,
    (rollback_error_kinds 99 5 dbOrphan).1⟩

/-- C4 witness: a partial update of request 1 (unsaved previously false)
merges the url and forces unsaved to true. -/
theorem update_merges_and_marks_unsaved_witness :
    findRequest dbA 1 = some reqA ∧
    reqA.unsaved = false ∧
    (∃ db1, RequestService.update 1 dtoU 9 dbA = .ok (mergeUpdate dtoU 9 reqA, db1) ∧
      (mergeUpdate dtoU 9 reqA).unsaved = true ∧
      findRequest db1 1 = some (mergeUpdate dtoU 9 reqA) ∧
      db1.checkpoints = dbA.checkpoints) :=
  ⟨rfl, rfl, (update_merges_and_marks_unsaved 1 dtoU 9 dbA).2 reqA rfl⟩

/-- C5 witness: the checkpoint created against dbA snapshots reqA's fields
and survives every later request mutation. -/
theorem checkpoint_data_is_snapshot_copy_witness :
    findRequest dbA 1 = some reqA ∧
    CheckpointService.create dtoC false 20 5 dbA = .ok (cpNew, dbAfterCreate) ∧
    (cpNew.data = { url := reqA.url, method := reqA.method,
                    headers := reqA.headers, body := reqA.body } ∧
     cpNew ∈ dbAfterCreate.checkpoints ∧
     (∀ ms : List RequestMutation,
       (applyMutations ms dbAfterCreate).checkpoints = dbAfterCreate.checkpoints ∧
       cpNew ∈ (applyMutations ms dbAfterCreate).checkpoints)) :=
  ⟨rfl, rfl,
    checkpoint_data_is_snapshot_copy dtoC false 20 5 dbA reqA cpNew dbAfterCreate rfl rfl⟩

/-- C6 witness: listing the checkpoints of request 1 in dbB returns them
newest-first; the sorted result is evaluated explicitly. -/
theorem list_checkpoints_for_request_witness :
    findRequest dbB 1 = some reqA ∧
    (CheckpointService.findAllForRequest 1 dbB =
        .ok (sortByCreatedAtDesc (dbB.checkpoints.filter (fun c => c.requestId == 1))) ∧
      List.Perm (sortByCreatedAtDesc (dbB.checkpoints.filter (fun c => c.requestId == 1)))
        (dbB.checkpoints.filter (fun c => c.requestId == 1)) ∧
      List.Sorted newerFirst
        (sortByCreatedAtDesc (dbB.checkpoints.filter (fun c => c.requestId == 1))) ∧
      (dbB.checkpoints.filter (fun c => c.requestId == 1) = [] →
        CheckpointService.findAllForRequest 1 dbB = .ok [])) ∧
    sortByCreatedAtDesc (dbB.checkpoints.filter (fun c => c.requestId == 1)) =
      [cpB2, cpA, cpB1] :=
  ⟨rfl, (list_checkpoints_for_request 1 dbB).2 reqA rfl, rfl⟩

/-- C9 witness: deleting checkpoint 10 from dbA succeeds, reports the id,
and leaves the request collection unchanged. -/
theorem remove_checkpoint_spec_witness :
    CheckpointService.remove 10 dbA =
      .ok ({ deleted := true, id := 10 }, { requests := [reqA], checkpoints := [] }) ∧
    (({ deleted := true, id := 10 } : RemoveResult).deleted = true ∧
     ({ deleted := true, id := 10 } : RemoveResult).id = 10 ∧
     ({ requests := [reqA], checkpoints := [] } : DB).requests = dbA.requests) :=
  ⟨rfl, (remove_checkpoint_spec 10 dbA).2.2
    { deleted := true, id := 10 } { requests := [reqA], checkpoints := [] } rfl⟩

/-- C10 counterexample: a successful rollback does change a field outside
url, method, headers, body and unsaved — the updatedAt timestamp moves from
0 to the write instant 7, so the claim that every other field is unchanged
fails on this input. -/
theorem rollback_changes_updatedAt :
    CheckpointService.rollback 10 7 dbA =
      .ok (applyRollbackData cpA.data 7 reqA,
        dbAfterRequestUpdate dbA 1 (applyRollbackData cpA.data 7 reqA)) ∧
    (applyRollbackData cpA.data 7 reqA).updatedAt = 7 ∧
    reqA.updatedAt = 0 :=
  ⟨rfl, rfl, rfl⟩

/-- C10 witness: the same rollback leaves _id, name and createdAt unchanged. -/
theorem rollback_frame_effect_witness :
    findCheckpoint dbA 10 = some cpA ∧
    findRequest dbA 1 = some reqA ∧
    (∃ db1, CheckpointService.rollback 10 7 dbA =
        .ok (applyRollbackData cpA.data 7 reqA, db1) ∧
      (applyRollbackData cpA.data 7 reqA)._id = reqA._id ∧
      (applyRollbackData cpA.data 7 reqA).name = reqA.name ∧
      (applyRollbackData cpA.data 7 reqA).createdAt = reqA.createdAt) :=
  ⟨rfl, rfl, rollback_frame_effect 10 7 dbA cpA reqA rfl rfl⟩

/-- C8 witness: evaluating the amended enum characterisation at PUT. -/
theorem method_enum_exactly_four_witness :
    (CreateRequestDto.methodAccepted "PUT" = true ↔
      ("PUT" = "GET" ∨ "PUT" = "POST" ∨ "PUT" = "PUT" ∨ "PUT" = "DELETE")) ∧
    (UpdateRequestDto.methodAccepted (some "PUT") = true ↔
      ("PUT" = "GET" ∨ "PUT" = "POST" ∨ "PUT" = "PUT" ∨ "PUT" = "DELETE")) ∧
    (requestMethodEnum.contains "PUT" = true ↔
      ("PUT" = "GET" ∨ "PUT" = "POST" ∨ "PUT" = "PUT" ∨ "PUT" = "DELETE")) :=
  method_enum_exactly_four "PUT"
